import Mathlib

/-!
Shallow embedding of the transaction-status reconciliation and resilient
external-call subsystem of the blockchain-notepad repository
(src/notes/tasks.py, src/notes/utils.py, src/notes/models.py and the
management command src/notes/management/commands/update_transaction_status.py),
together with theorems settling the frozen claims about it.

Modelling conventions:
- Python strings for statuses become the inductive type Status.
- A remote transaction lookup (through the Blockfrost client) either returns
  a record with optional block_height / slot fields, raises an ApiError with a
  status code, or raises some other exception; this is the type LookupResult.
- Django model instances become the structure Transaction; the database is a
  List Transaction and a save() is a write-back keyed by primary key id.
- datetime values of the job are opaque Nat timestamps; the resilience layer
  (utils.py) uses time.time() floats, modelled as integer milliseconds so
  that the 0.5-second retry delays are exactly representable.
- The remote environment seen by one job run is a function
  env : String → LookupResult from tx_hash to the lookup outcome, reflecting
  that the classifier is a pure function of the single lookup response.
-/

namespace BlockchainNotepad

/-- Transaction status values, from models.py STATUS_CHOICES. -/
inductive Status where
  | pending
  | submitted
  | confirmed
  | failed
deriving DecidableEq, Repr

/-- Outcome of one remote transaction lookup as seen by
check_transaction_status in tasks.py: a successful response carrying the
optional block_height and slot fields, an ApiError with its status code
(the except ApiError branch), or any other exception (the except Exception
branch). -/
inductive LookupResult where
  | success (block_height : Option Nat) (slot : Option Nat)
  | apiError (status_code : Nat) (message : String)
  | otherError (message : String)
deriving DecidableEq, Repr

/-- The details dictionary returned by check_transaction_status: the
confirmed branch fills block_height and slot, the ApiError branch fills
error and error_code, the generic-exception branch fills only error.
Absent dictionary keys are none. -/
structure Details where
  block_height : Option Nat
  slot : Option Nat
  error : Option String
  error_code : Option Nat
deriving DecidableEq, Repr

/-- Python truthiness of an optional integer, as used by the test
tx_details.get('block_height') in tasks.py line 101: None and 0 are falsy. -/
def pyTruthy : Option Nat → Bool
  | none => false
  | some n => n != 0

/-- check_transaction_status (tasks.py lines 87-122): classify one lookup
outcome into a status plus optional details.  A truthy block_height yields
confirmed with block_height and slot; a success without one yields submitted;
an ApiError with status code 404 yields pending; any other ApiError yields
failed with error and error_code; a non-ApiError exception yields failed
with only the error message. -/
def check_transaction_status : LookupResult → Status × Option Details
  | .success bh slot =>
      if pyTruthy bh then
        (.confirmed, some ⟨bh, slot, none, none⟩)
      else
        (.submitted, none)
  | .apiError code msg =>
      if code = 404 then
        (.pending, none)
      else
        (.failed, some ⟨none, none, some msg, some code⟩)
  | .otherError msg =>
      (.failed, some ⟨none, none, some msg, none⟩)

/-- The Transaction model of models.py, with Django nullable columns as
Option fields and datetimes as opaque Nat timestamps.  The user foreign key
is an opaque Nat. -/
structure Transaction where
  id : Nat
  user : Nat
  tx_hash : String
  recipient_address : String
  amount_lovelace : Int
  status : Status
  block_height : Option Nat
  slot : Option Nat
  error_message : Option String
  error_code : Option String
  created_at : Nat
  submitted_at : Option Nat
  confirmed_at : Option Nat
  updated_at : Nat
deriving DecidableEq, Repr

/-- Summary dictionary returned by update_transaction_statuses. -/
structure JobSummary where
  updated : Nat
  errors : Nat
  processed : Nat
deriving DecidableEq, Repr

/-- The filter status__in=['pending', 'submitted'] of tasks.py line 30. -/
def pendingOrSubmitted (t : Transaction) : Bool :=
  t.status = .pending || t.status = .submitted

/-- One insertion step of the created_at ordering used below. -/
def insertByCreated (t : Transaction) : List Transaction → List Transaction
  | [] => [t]
  | u :: us =>
      if t.created_at ≤ u.created_at then t :: u :: us
      else u :: insertByCreated t us

/-- order_by('created_at') of tasks.py line 31, as an insertion sort
(ties between equal created_at values are broken arbitrarily, as in the
source, which leaves tie order to the database). -/
def sortByCreated : List Transaction → List Transaction
  | [] => []
  | t :: ts => insertByCreated t (sortByCreated ts)

/-- The queryset of tasks.py lines 29-31: filter to pending or submitted
records, order by created_at ascending, and slice to the first limit rows. -/
def selectTransactions (db : List Transaction) (limit : Nat) : List Transaction :=
  (sortByCreated (db.filter pendingOrSubmitted)).take limit

/-- The credential check of tasks.py line 39:
not blockfrost_project_id or blockfrost_project_id == ''. -/
def credentialMissing : Option String → Bool
  | none => true
  | some s => s = ""

/-- The update block of tasks.py lines 57-68 applied to one record: set
status and updated_at, and — only when the new status is confirmed and the
details dictionary is truthy (non-None; in the source the confirmed details
dictionary is always non-empty, hence truthy) — set confirmed_at,
block_height and slot from the details. -/
def applyUpdate (now : Nat) (t : Transaction) (status : Status)
    (details : Option Details) : Transaction :=
  let t1 : Transaction := { t with status := status, updated_at := now }
  match status, details with
  | .confirmed, some d =>
      { t1 with
          confirmed_at := some now
          block_height := d.block_height
          slot := d.slot }
  | _, _ => t1

/-- transaction.save() against the relational store: overwrite the row whose
primary key matches. -/
def saveRecord (row : Transaction) (db : List Transaction) : List Transaction :=
  db.map fun r => if r.id = row.id then row else r

/-- One iteration of the loop of tasks.py lines 51-75 over the summary
counters and the database: increment processed, classify, and if the
classified status differs from the stored one, write the updated row and
increment updated.  The try/except around the body is not modelled because
the embedded classifier is total and the embedded save cannot fail, so the
except branch is unreachable here. -/
def processStep (env : String → LookupResult) (now : Nat)
    (acc : JobSummary × List Transaction) (t : Transaction) :
    JobSummary × List Transaction :=
  let s1 : JobSummary := { acc.1 with processed := acc.1.processed + 1 }
  let sd := check_transaction_status (env t.tx_hash)
  if sd.1 ≠ t.status then
    ({ s1 with updated := s1.updated + 1 },
     saveRecord (applyUpdate now t sd.1 sd.2) acc.2)
  else
    (s1, acc.2)

/-- update_transaction_statuses (tasks.py lines 15-84): select the batch;
if it is empty return the zero summary at once; then check the credential
and, if it is missing, return with errors = 1 and nothing processed;
otherwise run the loop over the batch.  project_id models
settings.BLOCKFROST_PROJECT_ID, env the remote ledger as seen through
safe_blockfrost_call during this run, now the timezone.now() clock. -/
def update_transaction_statuses (project_id : Option String)
    (env : String → LookupResult) (now : Nat)
    (db : List Transaction) (limit : Nat) : JobSummary × List Transaction :=
  let transactions := selectTransactions db limit
  if transactions.isEmpty then
    ({ updated := 0, errors := 0, processed := 0 }, db)
  else if credentialMissing project_id then
    ({ updated := 0, errors := 1, processed := 0 }, db)
  else
    transactions.foldl (processStep env now)
      ({ updated := 0, errors := 0, processed := 0 }, db)

/-- Command.handle of management/commands/update_transaction_status.py:
it parses dry_run and limit, but passes only limit to
update_transaction_statuses — the dry_run flag affects nothing but the
console messages, which are not modelled. -/
def command_handle (project_id : Option String) (env : String → LookupResult)
    (now : Nat) (db : List Transaction) (dry_run : Bool) (limit : Nat) :
    JobSummary × List Transaction :=
  update_transaction_statuses project_id env now db limit

/-!
The resilience layer of utils.py.  Wall-clock time (time.time()) is an
integer number of milliseconds — every time constant of the source (the
0.5-second initial retry delay, its doublings, and the 60-second recovery
timeout) is an exact number of milliseconds, so this loses nothing against
the source's floats; a Django cache (both the default cache holding circuit-breaker
entries and the separate blockfrost_cache LocMemCache) is an association
list from key to value plus absolute expiry time, where an expired entry
behaves as absent.
-/

/-- One entry of a Django cache: the stored value and the absolute time at
which it expires. -/
structure CacheEntry (α : Type) where
  value : α
  expires_at : Int
deriving DecidableEq, Repr

/-- A Django cache store as an association list keyed by cache key. -/
abbrev CacheStore (α : Type) : Type := List (String × CacheEntry α)

/-- cache.get(key) at the given wall-clock time: the stored value if the
entry exists and has not expired, otherwise None. -/
def cacheGet {α : Type} (now : Int) (store : CacheStore α) (key : String) :
    Option α :=
  match store.find? (fun kv => kv.1 = key) with
  | some kv => if now < kv.2.expires_at then some kv.2.value else none
  | none => none

/-- cache.set(key, value, timeout) at the given time: (re)bind the key to
the value with expiry now + timeout. -/
def cacheSet {α : Type} (now : Int) (store : CacheStore α) (key : String)
    (v : α) (timeout : Int) : CacheStore α :=
  (key, ⟨v, now + timeout⟩) :: store.filter (fun kv => kv.1 ≠ key)

/-- cache.delete(key): remove any binding for the key. -/
def cacheDelete {α : Type} (store : CacheStore α) (key : String) :
    CacheStore α :=
  store.filter (fun kv => kv.1 ≠ key)

/-- The CircuitBreaker class of utils.py lines 65-121: configuration only;
its state lives in the shared default cache as (failure_count,
last_failure_time) tuples.  The field the source calls the cache key
prefix is named cache_key_stem here. -/
structure CircuitBreaker where
  failure_threshold : Nat
  recovery_timeout : Int
  cache_key_stem : String
deriving DecidableEq, Repr

/-- The per-service circuit state kept in the default cache. -/
abbrev CBStore : Type := CacheStore (Nat × Int)

/-- CircuitBreaker._get_cache_key: prefix, colon, service name. -/
def CircuitBreaker.cacheKeyFor (cb : CircuitBreaker) (service_name : String) :
    String :=
  cb.cache_key_stem ++ ":" ++ service_name

/-- CircuitBreaker.is_open (utils.py lines 77-98).  Returns the boolean
answer and the possibly mutated store: no entry means closed; an entry with
failure_count at or above the threshold is open while the elapsed time since
the last failure is below recovery_timeout, and once that timeout has passed
the entry is deleted and the answer is closed; an entry below the threshold
is closed and left in place. -/
def CircuitBreaker.is_open (cb : CircuitBreaker) (now : Int) (store : CBStore)
    (service_name : String) : Bool × CBStore :=
  let key := cb.cacheKeyFor service_name
  match cacheGet now store key with
  | none => (false, store)
  | some fd =>
      if fd.1 ≥ cb.failure_threshold then
        if now - fd.2 < cb.recovery_timeout then
          (true, store)
        else
          (false, cacheDelete store key)
      else
        (false, store)

/-- CircuitBreaker.record_success (utils.py lines 100-105): delete the
entry. -/
def CircuitBreaker.record_success (cb : CircuitBreaker) (store : CBStore)
    (service_name : String) : CBStore :=
  cacheDelete store (cb.cacheKeyFor service_name)

/-- CircuitBreaker.record_failure (utils.py lines 107-121): increment the
failure count (starting from 1 when no live entry exists), stamp the current
time, and store with a time-to-live of recovery_timeout * 2. -/
def CircuitBreaker.record_failure (cb : CircuitBreaker) (now : Int)
    (store : CBStore) (service_name : String) : CBStore :=
  let key := cb.cacheKeyFor service_name
  let failure_count :=
    match cacheGet now store key with
    | some fd => fd.1 + 1
    | none => 1
  cacheSet now store key (failure_count, now) (cb.recovery_timeout * 2)

/-- The global blockfrost_circuit_breaker instance of utils.py lines
124-129. -/
def blockfrost_circuit_breaker : CircuitBreaker :=
  { failure_threshold := 5
    recovery_timeout := 60 * 1000
    cache_key_stem := "blockfrost_circuit" }

/-- Outcome of one call in the resilience pipeline: a returned value or a
raised ApiError with its status code (the only exception kind the wrapped
Blockfrost client raises and the only one the retry decorator catches). -/
inductive CallResult (α : Type) where
  | ok (v : α)
  | apiErr (status_code : Nat) (message : String)
deriving DecidableEq, Repr

/-- The mutable world threaded through the pipeline: the wall clock, the
dedicated blockfrost_cache, the default cache holding circuit-breaker
entries, and a counter of underlying network invocations performed so
far. -/
structure SysState (α : Type) where
  time : Int
  bf_cache : CacheStore α
  cb_store : CBStore
  net_calls : Nat
deriving DecidableEq, Repr

/-- The cache key of cached_blockfrost_call lines 165-170: prefix, function
name and stringified arguments joined by colons.  The source md5-hashes the
joined string to a fixed-length digest; the digest is modelled by the joined
string itself (identical inputs give identical keys either way). -/
def blockfrostCacheKey (cache_key_stem : String) (func_name : String)
    (args : List String) : String :=
  String.intercalate ":" (cache_key_stem :: func_name :: args)

/-- The wrapper produced by cached_blockfrost_call (utils.py lines 154-189):
look the key up in blockfrost_cache; on a hit return the cached value; on a
miss perform the underlying call (net gives the outcome of the k-th network
invocation) and, when it succeeds, store the result with the configured
timeout. -/
def cachedCall {α : Type} (cache_timeout : Int) (key : String)
    (net : Nat → CallResult α) (st : SysState α) : CallResult α × SysState α :=
  match cacheGet st.time st.bf_cache key with
  | some v => (.ok v, st)
  | none =>
      let r := net st.net_calls
      let st1 : SysState α := { st with net_calls := st.net_calls + 1 }
      match r with
      | .ok v =>
          (.ok v,
           { st1 with bf_cache := cacheSet st1.time st1.bf_cache key v cache_timeout })
      | .apiErr c m => (.apiErr c m, st1)

/-- The wrapper produced by with_circuit_breaker (utils.py lines 132-151):
if the breaker reports open, raise ApiError 503 without calling further in;
otherwise run the inner call and report its success or failure to the
breaker before passing the outcome on. -/
def circuitCall {α : Type} (service_name : String)
    (inner : SysState α → CallResult α × SysState α)
    (st : SysState α) : CallResult α × SysState α :=
  let io := blockfrost_circuit_breaker.is_open st.time st.cb_store service_name
  let st1 : SysState α := { st with cb_store := io.2 }
  if io.1 then
    (.apiErr 503 "Circuit breaker is open - service temporarily unavailable", st1)
  else
    let rs := inner st1
    match rs.1 with
    | .ok v =>
        (.ok v,
         { rs.2 with
             cb_store :=
               blockfrost_circuit_breaker.record_success rs.2.cb_store service_name })
    | .apiErr c m =>
        (.apiErr c m,
         { rs.2 with
             cb_store :=
               blockfrost_circuit_breaker.record_failure rs.2.time rs.2.cb_store
                 service_name })

/-- The attempt loop of retry_on_failure (utils.py lines 36-59), with fuel
counting the attempts still allowed: on the last allowed attempt the outcome
(value or exception) propagates; earlier, a raised ApiError triggers a
blocking sleep of current_delay, the delay is multiplied by the backoff,
and the call is attempted again.  Fuel 0 is the unreachable fall-through
after the loop (the source re-raises there). -/
def retryAttempts {α : Type} (fuel : Nat) (current_delay backoff : Int)
    (inner : SysState α → CallResult α × SysState α)
    (st : SysState α) : CallResult α × SysState α :=
  match fuel with
  | 0 => (.apiErr 0 "unreachable", st)
  | 1 => inner st
  | n + 2 =>
      let rs := inner st
      match rs.1 with
      | .ok v => (.ok v, rs.2)
      | .apiErr _ _ =>
          retryAttempts (n + 1) (current_delay * backoff) backoff inner
            { rs.2 with time := rs.2.time + current_delay }

/-- The wrapper produced by retry_on_failure(max_retries, delay, backoff):
one initial attempt plus up to max_retries retries. -/
def retry_on_failure {α : Type} (max_retries : Nat) (delay backoff : Int)
    (inner : SysState α → CallResult α × SysState α)
    (st : SysState α) : CallResult α × SysState α :=
  retryAttempts (max_retries + 1) delay backoff inner st

/-- safe_blockfrost_call (utils.py lines 192-202): the decorator stack
applies retry_on_failure(max_retries = 2, delay = 0.5 seconds, i.e. 500
milliseconds) outermost, then
with_circuit_breaker() for service blockfrost, then cached_blockfrost_call()
innermost around the raw call func(*args, **kwargs).  args is the
stringified argument list entering the cache key; cache_timeout models
settings.BLOCKFROST_CACHE_TIMEOUT (default 300). -/
def safe_blockfrost_call {α : Type} (cache_timeout : Int) (args : List String)
    (net : Nat → CallResult α) (st : SysState α) : CallResult α × SysState α :=
  retry_on_failure 2 500 2
    (circuitCall "blockfrost"
      (cachedCall cache_timeout
        (blockfrostCacheKey "blockfrost" "safe_blockfrost_call" args) net))
    st

/-!
Concrete fixtures used by the claim theorems.
-/

/-- A submitted transaction record used as a concrete fixture. -/
def sampleTx : Transaction :=
  { id := 1
    user := 1
    tx_hash := "h1"
    recipient_address := "addr1"
    amount_lovelace := 5
    status := .submitted
    block_height := none
    slot := none
    error_message := none
    error_code := none
    created_at := 1
    submitted_at := some 1
    confirmed_at := none
    updated_at := 1 }

/-- Position of a status along the advancement chain pending, submitted,
confirmed of the state machine in spec section 4.3, with the terminal
failure branch last; a transition lowering this rank is a backward move. -/
def statusRank : Status → Nat
  | .pending => 0
  | .submitted => 1
  | .confirmed => 2
  | .failed => 3

/-- A circuit-breaker store in which the blockfrost circuit is open at time
zero: five recorded failures, the last at time 0, entry live until 120000 (the
2 * recovery_timeout time-to-live). -/
def openCBStore : CBStore :=
  [("blockfrost_circuit:blockfrost", ⟨(5, 0), 120000⟩)]

/-- The cache key of a sample safe_blockfrost_call invocation. -/
def hitKey : String :=
  blockfrostCacheKey "blockfrost" "safe_blockfrost_call" ["api.transaction", "h1"]

/-- A pipeline state whose blockfrost cache holds a hit for hitKey while the
blockfrost circuit is open. -/
def hitState : SysState Nat :=
  { time := 0
    bf_cache := [(hitKey, ⟨42, 100000⟩)]
    cb_store := openCBStore
    net_calls := 0 }

/-- A pipeline state with an empty blockfrost cache and the blockfrost
circuit open. -/
def noCacheOpenState : SysState Nat :=
  { time := 0
    bf_cache := []
    cb_store := openCBStore
    net_calls := 0 }

/-- Two submitted records sharing everything but id, hash and creation
time; used as the batch whose size exceeds a limit of one. -/
def earlyTx : Transaction :=
  { sampleTx with id := 1, tx_hash := "a", created_at := 1 }

/-- The younger of the two-record batch. -/
def lateTx : Transaction :=
  { sampleTx with id := 2, tx_hash := "b", created_at := 2 }

/-- A remote ledger in which every hash is confirmed at block 5, slot 3. -/
def confirmEnv : String → LookupResult :=
  fun _ => .success (some 5) (some 3)

/-!
Claim theorems.
-/

/-- C1: the reconciliation job applies a backward status transition.  A
record stored as submitted whose remote lookup answers not-found (ApiError
404) is classified pending and, because update_transaction_statuses
compares the classification with the stored status only for inequality
(tasks.py line 57) with no monotonicity guard, the record is written back
to pending — a status strictly less advanced than the stored one, which the
claim says no remote response can produce. -/
theorem C1_job_writes_backward_transition :
    (update_transaction_statuses (some "pid") (fun _ => .apiError 404 "tx not found")
        2 [sampleTx] 100).2.map Transaction.status = [Status.pending] ∧
    sampleTx.status = Status.submitted ∧
    statusRank Status.pending < statusRank Status.submitted := by
  decide

/-- C3: the dry-run flag does not suppress writes.  Command.handle parses
dry_run but calls update_transaction_statuses(limit=limit) without passing
it, so with dry_run = true a submitted record whose lookup reports a block
is still persisted as confirmed, contradicting the claim (and the command's
own console message) that no record changes. -/
theorem C3_dry_run_still_writes :
    (command_handle (some "pid") (fun _ => .success (some 500) (some 12345))
        2 [sampleTx] true 100).2 ≠ [sampleTx] ∧
    (command_handle (some "pid") (fun _ => .success (some 500) (some 12345))
        2 [sampleTx] true 100).2.map Transaction.status = [Status.confirmed] := by
  decide

/-- C2 counterexample: a cache hit does not bypass the circuit breaker.  In
a state whose blockfrost cache holds the value 42 for the call's key but
whose circuit is open, the call returns ApiError 503 instead of the cached
value, because the decorator stack of safe_blockfrost_call runs the
circuit-breaker gate before the cache lookup (the underlying call is indeed
not invoked: net_calls stays 0). -/
theorem C2_hit_does_not_bypass_breaker :
    cacheGet hitState.time hitState.bf_cache hitKey = some 42 ∧
    (safe_blockfrost_call 300000 ["api.transaction", "h1"] (fun _ => .ok 7) hitState).1 =
      CallResult.apiErr 503 "Circuit breaker is open - service temporarily unavailable" ∧
    (safe_blockfrost_call 300000 ["api.transaction", "h1"] (fun _ => .ok 7) hitState).2.net_calls = 0 := by
  decide

/-- C4 counterexample: an open circuit does not fail immediately nor spare
the retry budget.  With the circuit open, the 503 rejection raised by the
gate is an ApiError, which the outer retry_on_failure(max_retries = 2)
catches: the wall clock advances by the two backoff sleeps 500 + 1000 = 1500
milliseconds before the 503 propagates.  The underlying network call is never attempted
(net_calls stays 0). -/
theorem C4_circuit_open_retried_with_delays :
    (safe_blockfrost_call 300000 ["api.transaction", "h1"] (fun _ => .ok 7) noCacheOpenState).1 =
      CallResult.apiErr 503 "Circuit breaker is open - service temporarily unavailable" ∧
    (safe_blockfrost_call 300000 ["api.transaction", "h1"] (fun _ => .ok 7) noCacheOpenState).2.time = 1500 ∧
    (safe_blockfrost_call 300000 ["api.transaction", "h1"] (fun _ => .ok 7) noCacheOpenState).2.net_calls = 0 := by
  decide

/-- C5 counterexample: a failure that is not an ApiError is classified
failed with only the error message — the error_code key the claim promises
is absent (tasks.py lines 119-122 return a one-key dictionary). -/
theorem C5_generic_failure_lacks_error_code :
    (check_transaction_status (.otherError "connection reset")).1 = Status.failed ∧
    Option.map Details.error_code
      (check_transaction_status (.otherError "connection reset")).2 = some none := by
  decide

/-- C5 amended: full characterization of the classifier.  The claim's
reading survives except on two points the source decides differently: a
block height of 0 is falsy in Python, so it classifies as submitted rather
than confirmed, and a non-ApiError failure carries only the error message,
without an error_code. -/
theorem C5_classifier_characterization :
    (∀ bh slot, bh ≠ none → bh ≠ some 0 →
        check_transaction_status (.success bh slot) =
          (Status.confirmed, some ⟨bh, slot, none, none⟩)) ∧
    (∀ bh slot, bh = none ∨ bh = some 0 →
        check_transaction_status (.success bh slot) = (Status.submitted, none)) ∧
    (∀ msg, check_transaction_status (.apiError 404 msg) = (Status.pending, none)) ∧
    (∀ code msg, code ≠ 404 →
        check_transaction_status (.apiError code msg) =
          (Status.failed, some ⟨none, none, some msg, some code⟩)) ∧
    (∀ msg, check_transaction_status (.otherError msg) =
        (Status.failed, some ⟨none, none, some msg, none⟩)) := by
  refine ⟨?_, ?_, ?_, ?_, ?_⟩
  · intro bh slot h0 h1
    match bh with
    | none => exact absurd rfl h0
    | some n =>
        have hn : n ≠ 0 := fun h => h1 (by simp [h])
        simp [check_transaction_status, pyTruthy, hn]
  · intro bh slot h
    rcases h with h | h <;> subst h <;> simp [check_transaction_status, pyTruthy]
  · intro msg
    simp [check_transaction_status]
  · intro code msg h
    simp [check_transaction_status, h]
  · intro msg
    simp [check_transaction_status]

/-- C5 witness: the characterization applied at a lookup response with
block height 500 and slot 12345. -/
theorem C5_classifier_characterization_witness :
    check_transaction_status (.success (some 500) (some 12345)) =
      (Status.confirmed, some ⟨some 500, some 12345, none, none⟩) :=
  C5_classifier_characterization.1 (some 500) (some 12345)
    (by decide) (by decide)

/-- C7 counterexample: a second run right after a first one is not always a
no-op.  With two stale submitted records and limit = 1, the first run
updates only the older record; the second run then selects the younger one
(the older no longer matches the pending-or-submitted filter) and updates
it, reporting updated = 1, not 0. -/
theorem C7_second_run_can_update :
    (update_transaction_statuses (some "pid") confirmEnv 3
        (update_transaction_statuses (some "pid") confirmEnv 2 [earlyTx, lateTx] 1).2
        1).1.updated = 1 := by
  decide

/-- C8 counterexample: a remote response carrying a block height but no
slot confirms the record while leaving slot null — after the run the record
has status confirmed and slot none, violating the claimed invariant that
slot is non-null on every confirmed record. -/
theorem C8_confirmed_with_null_slot :
    (update_transaction_statuses (some "pid") (fun _ => .success (some 500) none)
        2 [sampleTx] 100).2.map Transaction.status = [Status.confirmed] ∧
    (update_transaction_statuses (some "pid") (fun _ => .success (some 500) none)
        2 [sampleTx] 100).2.map Transaction.slot = [(none : Option Nat)] := by
  decide

/-- C9 counterexample: with no pending or submitted records the job returns
before the credential check (tasks.py lines 33-35), so a missing credential
is not reported: the summary has errors = 0, against the claim that every
invocation with a missing credential reports the error. -/
theorem C9_missing_credential_unreported_on_empty_batch :
    update_transaction_statuses none (fun _ => .apiError 404 "x") 5
        ([] : List Transaction) 10 =
      ({ updated := 0, errors := 0, processed := 0 }, []) := by
  decide

/-!
Cache store helper lemmas.
-/

/-- Looking a key up after deleting it gives None at every time. -/
theorem cacheGet_delete_self {α : Type} (store : CacheStore α) (key : String)
    (t : Int) : cacheGet t (cacheDelete store key) key = none := by
  unfold cacheGet cacheDelete
  induction store with
  | nil => rfl
  | cons kv rest ih =>
      by_cases h : kv.1 = key
      · simpa [List.filter, h] using ih
      · simpa [List.filter, h] using ih

/-- Looking a key up right after setting it gives the stored value while
the entry has not expired and None afterwards. -/
theorem cacheGet_set_self {α : Type} (now : Int) (store : CacheStore α)
    (key : String) (v : α) (timeout : Int) (t : Int) :
    cacheGet t (cacheSet now store key v timeout) key =
      if t < now + timeout then some v else none := by
  unfold cacheGet cacheSet
  simp [List.find?]

/-- C6: circuit-breaker threshold, lazy recovery and failure time-to-live,
for the blockfrost breaker configured with failure_threshold = 5 and
recovery_timeout = 60 seconds (60000 ms).  Four parts: (a) with a live
entry (count, last_failure_time), is_open answers true exactly when count
is at least 5 and less than 60 s have elapsed since the last failure;
(b) without a live entry is_open answers false and changes nothing;
(c) once a count at or above the threshold has aged 60 s, is_open answers
false and deletes the entry — recovery needs no record_success call;
(d) an entry written by record_failure is observable exactly until
2 * recovery_timeout after the write. -/
theorem C6_threshold_recovery_and_ttl :
    (∀ (now : Int) (store : CBStore) (service : String) (c : Nat) (lft : Int),
        cacheGet now store (blockfrost_circuit_breaker.cacheKeyFor service) = some (c, lft) →
        ((blockfrost_circuit_breaker.is_open now store service).1 = true ↔
          (5 ≤ c ∧ now - lft < 60000))) ∧
    (∀ (now : Int) (store : CBStore) (service : String),
        cacheGet now store (blockfrost_circuit_breaker.cacheKeyFor service) = none →
        blockfrost_circuit_breaker.is_open now store service = (false, store)) ∧
    (∀ (now : Int) (store : CBStore) (service : String) (c : Nat) (lft : Int),
        cacheGet now store (blockfrost_circuit_breaker.cacheKeyFor service) = some (c, lft) →
        5 ≤ c → 60000 ≤ now - lft →
        (blockfrost_circuit_breaker.is_open now store service).1 = false ∧
        (∀ t : Int, cacheGet t (blockfrost_circuit_breaker.is_open now store service).2
            (blockfrost_circuit_breaker.cacheKeyFor service) = none)) ∧
    (∀ (now : Int) (store : CBStore) (service : String) (t : Int),
        Option.isSome (cacheGet t
            (blockfrost_circuit_breaker.record_failure now store service)
            (blockfrost_circuit_breaker.cacheKeyFor service)) = true ↔
          t < now + 120000) := by
  have hth : blockfrost_circuit_breaker.failure_threshold = 5 := rfl
  have hrt : blockfrost_circuit_breaker.recovery_timeout = 60000 := rfl
  refine ⟨?_, ?_, ?_, ?_⟩
  · intro now store service c lft h
    simp only [CircuitBreaker.is_open, h, hth, hrt, ge_iff_le]
    by_cases h5 : 5 ≤ c
    · by_cases hrec : now - lft < 60000
      · simp [h5, hrec]
      · simp [h5, hrec]
    · simp [h5]
  · intro now store service h
    simp [CircuitBreaker.is_open, h]
  · intro now store service c lft h h5 hrec
    have hnotlt : ¬ (now - lft < (60000 : Int)) := by omega
    constructor
    · simp [CircuitBreaker.is_open, h, hth, hrt, ge_iff_le, h5, hnotlt]
    · intro t
      simp [CircuitBreaker.is_open, h, hth, hrt, ge_iff_le, h5, hnotlt,
        cacheGet_delete_self]
  · intro now store service t
    have h2 : blockfrost_circuit_breaker.recovery_timeout * 2 = 120000 := rfl
    simp only [CircuitBreaker.record_failure, cacheGet_set_self, h2]
    by_cases hlt : t < now + 120000
    · simp [hlt]
    · simp [hlt]

/-- C6 witness: with the concrete open store (five failures, last at time
0), is_open is true at 59 s, and at 60 s it is false with the entry
cleared; an entry recorded at time 0 is observable at 100 s. -/
theorem C6_threshold_recovery_and_ttl_witness :
    ((blockfrost_circuit_breaker.is_open 59000 openCBStore "blockfrost").1 = true ↔
      (5 ≤ 5 ∧ (59000 : Int) - 0 < 60000)) ∧
    ((blockfrost_circuit_breaker.is_open 60000 openCBStore "blockfrost").1 = false ∧
      (∀ t : Int, cacheGet t (blockfrost_circuit_breaker.is_open 60000 openCBStore "blockfrost").2
          (blockfrost_circuit_breaker.cacheKeyFor "blockfrost") = none)) ∧
    (Option.isSome (cacheGet 100000
        (blockfrost_circuit_breaker.record_failure 0 ([] : CBStore) "blockfrost")
        (blockfrost_circuit_breaker.cacheKeyFor "blockfrost")) = true ↔
      (100000 : Int) < 0 + 120000) :=
  ⟨C6_threshold_recovery_and_ttl.1 59000 openCBStore "blockfrost" 5 0 (by decide),
   C6_threshold_recovery_and_ttl.2.2.1 60000 openCBStore "blockfrost" 5 0 (by decide)
     (by decide) (by decide),
   C6_threshold_recovery_and_ttl.2.2.2 0 ([] : CBStore) "blockfrost" 100000⟩

/-- C9 amended: the missing-credential error is reported only when the
batch is non-empty.  When at least one pending or submitted record is
selected, a missing credential aborts before any lookup or write, with
summary updated 0, errors 1, processed 0 and the store untouched; when the
batch is empty the job returns updated 0, errors 0, processed 0 before ever
checking the credential, so the configuration error goes unreported. -/
theorem C9_missing_credential_reported_iff_batch_nonempty :
    ∀ (pid : Option String) (env : String → LookupResult) (now : Nat)
      (db : List Transaction) (limit : Nat),
      credentialMissing pid = true →
      (selectTransactions db limit ≠ [] →
        update_transaction_statuses pid env now db limit =
          ({ updated := 0, errors := 1, processed := 0 }, db)) ∧
      (selectTransactions db limit = [] →
        update_transaction_statuses pid env now db limit =
          ({ updated := 0, errors := 0, processed := 0 }, db)) := by
  intro pid env now db limit hcred
  constructor
  · intro hsel
    simp [update_transaction_statuses, List.isEmpty_iff, hsel, hcred]
  · intro hsel
    simp [update_transaction_statuses, List.isEmpty_iff, hsel]

/-- C9 witness: with one submitted record and no credential the error is
reported with nothing processed. -/
theorem C9_missing_credential_reported_witness :
    update_transaction_statuses none (fun _ => .apiError 404 "x") 5 [sampleTx] 10 =
      ({ updated := 0, errors := 1, processed := 0 }, [sampleTx]) :=
  (C9_missing_credential_reported_iff_batch_nonempty none (fun _ => .apiError 404 "x")
      5 [sampleTx] 10 (by decide)).1 (by decide)

/-!
Selection and job-loop helper lemmas.
-/

/-- Inserting keeps exactly the old elements plus the inserted one. -/
theorem insertByCreated_perm (t : Transaction) (l : List Transaction) :
    (insertByCreated t l).Perm (t :: l) := by
  induction l with
  | nil => exact List.Perm.refl _
  | cons v vs ih =>
      by_cases h : t.created_at ≤ v.created_at
      · simp only [insertByCreated, if_pos h]
        exact List.Perm.refl _
      · simp only [insertByCreated, if_neg h]
        exact (ih.cons v).trans (List.Perm.swap t v vs)

/-- The created_at insertion sort permutes its input. -/
theorem sortByCreated_perm (l : List Transaction) :
    (sortByCreated l).Perm l := by
  induction l with
  | nil => exact List.Perm.refl _
  | cons t ts ih =>
      exact (insertByCreated_perm t (sortByCreated ts)).trans (ih.cons t)

/-- Sorting preserves membership. -/
theorem mem_sortByCreated {u : Transaction} {l : List Transaction} :
    u ∈ sortByCreated l ↔ u ∈ l :=
  (sortByCreated_perm l).mem_iff

/-- A selected record is a pending-or-submitted record of the store. -/
theorem mem_selectTransactions {u : Transaction} {db : List Transaction}
    {limit : Nat} (h : u ∈ selectTransactions db limit) :
    u ∈ db ∧ pendingOrSubmitted u = true := by
  unfold selectTransactions at h
  have h2 : u ∈ sortByCreated (db.filter pendingOrSubmitted) :=
    List.take_subset _ _ h
  rw [mem_sortByCreated] at h2
  exact ⟨(List.mem_filter.mp h2).1, (List.mem_filter.mp h2).2⟩

/-- The loop body when the classified status differs from the stored one. -/
theorem processStep_changed (env : String → LookupResult) (now : Nat)
    (s : JobSummary) (db : List Transaction) (t : Transaction)
    (h : (check_transaction_status (env t.tx_hash)).1 ≠ t.status) :
    processStep env now (s, db) t =
      ({ s with processed := s.processed + 1, updated := s.updated + 1 },
       saveRecord
         (applyUpdate now t (check_transaction_status (env t.tx_hash)).1
           (check_transaction_status (env t.tx_hash)).2) db) := by
  simp [processStep, h]

/-- The loop body when the classified status equals the stored one. -/
theorem processStep_unchanged (env : String → LookupResult) (now : Nat)
    (s : JobSummary) (db : List Transaction) (t : Transaction)
    (h : (check_transaction_status (env t.tx_hash)).1 = t.status) :
    processStep env now (s, db) t =
      ({ s with processed := s.processed + 1 }, db) := by
  simp [processStep, h]

/-- A member of the store after a save is the saved row or an old member. -/
theorem mem_saveRecord {row r2 : Transaction} {db : List Transaction}
    (h : r2 ∈ saveRecord row db) : r2 = row ∨ r2 ∈ db := by
  unfold saveRecord at h
  rcases List.mem_map.mp h with ⟨r4, hr4, heq⟩
  by_cases hid : r4.id = row.id
  · left
    rw [← heq]
    simp [hid]
  · right
    rw [← heq]
    simpa [hid] using hr4

/-!
C10: the job writes only the five status fields.
-/

/-- The fields the reconciliation job must never write: two records agree
on everything except status, updated_at, confirmed_at, block_height and
slot. -/
def sameFrame (a b : Transaction) : Prop :=
  a.id = b.id ∧ a.user = b.user ∧ a.tx_hash = b.tx_hash ∧
  a.recipient_address = b.recipient_address ∧
  a.amount_lovelace = b.amount_lovelace ∧
  a.error_message = b.error_message ∧ a.error_code = b.error_code ∧
  a.created_at = b.created_at ∧ a.submitted_at = b.submitted_at

instance (a b : Transaction) : Decidable (sameFrame a b) := by
  unfold sameFrame
  infer_instance

/-- Frame agreement is reflexive. -/
theorem sameFrame_refl (a : Transaction) : sameFrame a a := by
  unfold sameFrame
  simp

/-- The update block touches none of the frame fields, whatever status and
details it is given — in particular the error details of a failed
classification are discarded, never written. -/
theorem sameFrame_applyUpdate (now : Nat) (t : Transaction) (status : Status)
    (details : Option Details) :
    sameFrame t (applyUpdate now t status details) := by
  unfold applyUpdate sameFrame
  cases status <;> cases details <;> simp

/-- Every record in the store after the job loop agrees with some record of
the original store on all frame fields. -/
theorem processFold_frame (env : String → LookupResult) (now : Nat)
    (db0 : List Transaction) :
    ∀ (ts : List Transaction) (s : JobSummary) (dbAcc : List Transaction),
      (∀ t ∈ ts, t ∈ db0) →
      (∀ r2 ∈ dbAcc, ∃ r1 ∈ db0, sameFrame r1 r2) →
      ∀ r2 ∈ (ts.foldl (processStep env now) (s, dbAcc)).2,
        ∃ r1 ∈ db0, sameFrame r1 r2 := by
  intro ts
  induction ts with
  | nil =>
      intro s dbAcc hts hacc r2 hr2
      exact hacc r2 hr2
  | cons t rest ih =>
      intro s dbAcc hts hacc r2 hr2
      rw [List.foldl_cons] at hr2
      by_cases hch : (check_transaction_status (env t.tx_hash)).1 = t.status
      · rw [processStep_unchanged env now s dbAcc t hch] at hr2
        exact ih _ _ (fun u hu => hts u (List.mem_cons_of_mem _ hu)) hacc r2 hr2
      · rw [processStep_changed env now s dbAcc t hch] at hr2
        refine ih _ _ (fun u hu => hts u (List.mem_cons_of_mem _ hu)) ?_ r2 hr2
        intro r3 hr3
        rcases mem_saveRecord hr3 with h | h
        · exact ⟨t, hts t (List.mem_cons_self t rest), h ▸ sameFrame_applyUpdate now t _ _⟩
        · exact hacc r3 h

/-- C10: the reconciliation job never writes any field other than status,
updated_at, confirmed_at, block_height and slot: every record in the store
after a run agrees with a record of the original store on id, user,
tx_hash, recipient_address, amount_lovelace, error_message, error_code,
created_at and submitted_at — in particular the error details a failed
classification produces are discarded, and error_message / error_code stay
untouched. -/
theorem C10_frame_only_status_fields :
    ∀ (pid : Option String) (env : String → LookupResult) (now : Nat)
      (db : List Transaction) (limit : Nat) (r2 : Transaction),
      r2 ∈ (update_transaction_statuses pid env now db limit).2 →
      ∃ r1 ∈ db, sameFrame r1 r2 := by
  intro pid env now db limit r2 h
  simp only [update_transaction_statuses] at h
  by_cases h1 : (selectTransactions db limit).isEmpty
  · rw [if_pos h1] at h
    exact ⟨r2, h, sameFrame_refl r2⟩
  · rw [if_neg h1] at h
    by_cases h2 : credentialMissing pid = true
    · rw [if_pos h2] at h
      exact ⟨r2, h, sameFrame_refl r2⟩
    · rw [if_neg h2] at h
      exact processFold_frame env now db _ _ _
        (fun t ht => (mem_selectTransactions ht).1)
        (fun r hr => ⟨r, hr, sameFrame_refl r⟩) r2 h

/-- The record produced by confirming sampleTx at block 5, slot 3, time 2. -/
def confirmedSampleTx : Transaction :=
  { sampleTx with
      status := Status.confirmed
      updated_at := 2
      confirmed_at := some 2
      block_height := some 5
      slot := some 3 }

/-- C10 witness: the frame theorem applied to the record left by a run that
confirms sampleTx. -/
theorem C10_frame_only_status_fields_witness :
    ∃ r1 ∈ [sampleTx], sameFrame r1 confirmedSampleTx :=
  C10_frame_only_status_fields (some "pid") confirmEnv 2 [sampleTx] 100
    confirmedSampleTx (by decide)

/-!
C8: the confirmed-metadata invariant, as the code maintains it.
-/

/-- The metadata invariant the job actually maintains: a confirmed record
has confirmed_at and block_height non-null; a non-confirmed record has
confirmed_at null; block_height and slot are non-null only on confirmed
records.  The original claim also promised a non-null slot on every
confirmed record, which the counterexample refutes. -/
def MetaInv (t : Transaction) : Prop :=
  (t.status = Status.confirmed → t.confirmed_at ≠ none ∧ t.block_height ≠ none) ∧
  (t.status ≠ Status.confirmed → t.confirmed_at = none) ∧
  (t.block_height ≠ none → t.status = Status.confirmed) ∧
  (t.slot ≠ none → t.status = Status.confirmed)

instance (t : Transaction) : Decidable (MetaInv t) := by
  unfold MetaInv
  infer_instance

/-- A record passing the job's pending-or-submitted filter is not
confirmed. -/
theorem pendingOrSubmitted_ne_confirmed {t : Transaction}
    (h : pendingOrSubmitted t = true) : t.status ≠ Status.confirmed := by
  intro hc
  simp [pendingOrSubmitted, hc] at h

/-- When the classifier answers confirmed, it always supplies a details
dictionary whose block_height passed the Python truthiness test, hence is
non-null. -/
theorem check_confirmed_details (res : LookupResult)
    (h : (check_transaction_status res).1 = Status.confirmed) :
    ∃ d, (check_transaction_status res).2 = some d ∧ d.block_height ≠ none := by
  cases res with
  | success bh slot =>
      by_cases hb : pyTruthy bh = true
      · refine ⟨⟨bh, slot, none, none⟩, by simp [check_transaction_status, hb], ?_⟩
        cases bh with
        | none => simp [pyTruthy] at hb
        | some n => simp
      · simp [check_transaction_status, hb] at h
  | apiError code msg =>
      by_cases hc : code = 404 <;> simp [check_transaction_status, hc] at h
  | otherError msg =>
      simp [check_transaction_status] at h

/-- The update block when the new status is not confirmed: only status and
updated_at change. -/
theorem applyUpdate_not_confirmed (now : Nat) (t : Transaction)
    (status : Status) (details : Option Details)
    (h : status ≠ Status.confirmed) :
    applyUpdate now t status details =
      { t with status := status, updated_at := now } := by
  unfold applyUpdate
  cases status <;> cases details <;> simp_all

/-- The update block on a confirmed classification with its details. -/
theorem applyUpdate_confirmed (now : Nat) (t : Transaction) (d : Details) :
    applyUpdate now t Status.confirmed (some d) =
      { t with
          status := Status.confirmed
          updated_at := now
          confirmed_at := some now
          block_height := d.block_height
          slot := d.slot } := by
  unfold applyUpdate
  rfl

/-- Writing a classified update to a pending-or-submitted record satisfying
the metadata invariant preserves it. -/
theorem metaInv_applyUpdate (now : Nat) (t : Transaction) (res : LookupResult)
    (hps : pendingOrSubmitted t = true) (h : MetaInv t) :
    MetaInv (applyUpdate now t (check_transaction_status res).1
      (check_transaction_status res).2) := by
  have hne := pendingOrSubmitted_ne_confirmed hps
  have hca : t.confirmed_at = none := h.2.1 hne
  have hbh : t.block_height = none := by
    by_contra hx
    exact hne (h.2.2.1 hx)
  have hsl : t.slot = none := by
    by_contra hx
    exact hne (h.2.2.2 hx)
  by_cases hc : (check_transaction_status res).1 = Status.confirmed
  · rcases check_confirmed_details res hc with ⟨d, hd, hdb⟩
    rw [hc, hd, applyUpdate_confirmed]
    refine ⟨fun _ => ⟨by simp, by simpa using hdb⟩, fun hx => absurd rfl hx,
      fun _ => rfl, fun _ => rfl⟩
  · rw [applyUpdate_not_confirmed now t _ _ hc]
    refine ⟨fun hx => absurd hx (by simpa using hc), fun _ => by simpa using hca,
      fun hx => absurd (by simpa using hbh) hx, fun hx => absurd (by simpa using hsl) hx⟩

/-- The job loop preserves the metadata invariant across the whole store
when every record of the batch passes the filter and satisfies it. -/
theorem processFold_metaInv (env : String → LookupResult) (now : Nat) :
    ∀ (ts : List Transaction) (s : JobSummary) (dbAcc : List Transaction),
      (∀ t ∈ ts, pendingOrSubmitted t = true ∧ MetaInv t) →
      (∀ r ∈ dbAcc, MetaInv r) →
      ∀ r ∈ (ts.foldl (processStep env now) (s, dbAcc)).2, MetaInv r := by
  intro ts
  induction ts with
  | nil =>
      intro s dbAcc _ hacc r hr
      exact hacc r hr
  | cons t rest ih =>
      intro s dbAcc hts hacc r hr
      rw [List.foldl_cons] at hr
      by_cases hch : (check_transaction_status (env t.tx_hash)).1 = t.status
      · rw [processStep_unchanged env now s dbAcc t hch] at hr
        exact ih _ _ (fun u hu => hts u (List.mem_cons_of_mem _ hu)) hacc r hr
      · rw [processStep_changed env now s dbAcc t hch] at hr
        refine ih _ _ (fun u hu => hts u (List.mem_cons_of_mem _ hu)) ?_ r hr
        intro r3 hr3
        rcases mem_saveRecord hr3 with hh | hh
        · have hmem := hts t (List.mem_cons_self t rest)
          exact hh ▸ metaInv_applyUpdate now t (env t.tx_hash) hmem.1 hmem.2
        · exact hacc r3 hh

/-- C8 amended: starting from a store whose records all satisfy the
metadata invariant, after any run every confirmed record has confirmed_at
and block_height non-null, every non-confirmed record has confirmed_at
null, and block_height and slot are non-null only on confirmed records.
The original claim's stronger promise — slot non-null on every confirmed
record — fails (see the counterexample) because the job copies slot
verbatim from the remote response, which may omit it. -/
theorem C8_confirmed_metadata_invariant :
    ∀ (pid : Option String) (env : String → LookupResult) (now : Nat)
      (db : List Transaction) (limit : Nat),
      (∀ t ∈ db, MetaInv t) →
      ∀ r ∈ (update_transaction_statuses pid env now db limit).2, MetaInv r := by
  intro pid env now db limit hdb r h
  simp only [update_transaction_statuses] at h
  by_cases h1 : (selectTransactions db limit).isEmpty
  · rw [if_pos h1] at h
    exact hdb r h
  · rw [if_neg h1] at h
    by_cases h2 : credentialMissing pid = true
    · rw [if_pos h2] at h
      exact hdb r h
    · rw [if_neg h2] at h
      exact processFold_metaInv env now _ _ _
        (fun t ht => ⟨(mem_selectTransactions ht).2, hdb t (mem_selectTransactions ht).1⟩)
        hdb r h

/-- C8 witness: the invariant theorem applied to the record left by a run
confirming sampleTx at block 5, slot 3. -/
theorem C8_confirmed_metadata_invariant_witness : MetaInv confirmedSampleTx :=
  C8_confirmed_metadata_invariant (some "pid") confirmEnv 2 [sampleTx] 100
    (by decide) confirmedSampleTx (by decide)

/-!
C7: idempotence of the job against an unchanged remote state.
-/

/-- A record the classifier reproduces: if it passes the job's filter, the
classification of its lookup equals its stored status, so the job will not
write it. -/
def ClassFix (env : String → LookupResult) (t : Transaction) : Prop :=
  pendingOrSubmitted t = true →
    (check_transaction_status (env t.tx_hash)).1 = t.status

instance (env : String → LookupResult) (t : Transaction) :
    Decidable (ClassFix env t) := by
  unfold ClassFix
  infer_instance

/-- The update block preserves the primary key. -/
theorem applyUpdate_id (now : Nat) (t : Transaction) (status : Status)
    (details : Option Details) : (applyUpdate now t status details).id = t.id := by
  unfold applyUpdate
  cases status <;> cases details <;> simp

/-- The update block preserves the transaction hash. -/
theorem applyUpdate_tx_hash (now : Nat) (t : Transaction) (status : Status)
    (details : Option Details) :
    (applyUpdate now t status details).tx_hash = t.tx_hash := by
  unfold applyUpdate
  cases status <;> cases details <;> simp

/-- The update block stores exactly the classified status. -/
theorem applyUpdate_status (now : Nat) (t : Transaction) (status : Status)
    (details : Option Details) :
    (applyUpdate now t status details).status = status := by
  unfold applyUpdate
  cases status <;> cases details <;> simp

/-- Saving a row never changes the multiset of primary keys: the replaced
rows share the saved row's key. -/
theorem saveRecord_map_id (row : Transaction) (db : List Transaction) :
    (saveRecord row db).map Transaction.id = db.map Transaction.id := by
  unfold saveRecord
  induction db with
  | nil => rfl
  | cons r rest ih =>
      by_cases h : r.id = row.id
      · simp [h, ih]
      · simp [h, ih]

/-- A row whose key differs from the saved one survives a save. -/
theorem mem_saveRecord_of_ne {row u : Transaction} {db : List Transaction}
    (hu : u ∈ db) (hne : u.id ≠ row.id) : u ∈ saveRecord row db := by
  unfold saveRecord
  exact List.mem_map.mpr ⟨u, hu, by simp [hne]⟩

/-- Selecting keeps primary keys distinct when the store's are. -/
theorem selectTransactions_id_nodup (db : List Transaction) (limit : Nat)
    (h : (db.map Transaction.id).Nodup) :
    ((selectTransactions db limit).map Transaction.id).Nodup := by
  have hfil : ((db.filter pendingOrSubmitted).map Transaction.id).Nodup :=
    h.sublist ((List.filter_sublist db).map Transaction.id)
  have hsort : ((sortByCreated (db.filter pendingOrSubmitted)).map Transaction.id).Nodup :=
    (((sortByCreated_perm (db.filter pendingOrSubmitted)).map Transaction.id).nodup_iff).mpr hfil
  exact hsort.sublist
    ((List.take_sublist limit (sortByCreated (db.filter pendingOrSubmitted))).map
      Transaction.id)

/-- When the whole pending-or-submitted backlog fits in the limit, every
such record is selected. -/
theorem mem_select_of_pendingOrSubmitted {db : List Transaction} {limit : Nat}
    {r : Transaction} (hlen : (db.filter pendingOrSubmitted).length ≤ limit)
    (hr : r ∈ db) (hps : pendingOrSubmitted r = true) :
    r ∈ selectTransactions db limit := by
  have hmem : r ∈ sortByCreated (db.filter pendingOrSubmitted) :=
    mem_sortByCreated.mpr (List.mem_filter.mpr ⟨hr, hps⟩)
  have hlen2 : (sortByCreated (db.filter pendingOrSubmitted)).length ≤ limit := by
    rw [(sortByCreated_perm (db.filter pendingOrSubmitted)).length_eq]
    exact hlen
  unfold selectTransactions
  rw [List.take_of_length_le hlen2]
  exact hmem

/-- After the job loop runs over a batch of distinct-key records drawn from
the store, every record of the store is classifier-reproduced: batch
members were either rewritten to their classification or already matched
it, and rows outside the batch did not pass the filter. -/
theorem fold_establishes_fix (env : String → LookupResult) (now : Nat) :
    ∀ (ts : List Transaction) (s : JobSummary) (dbAcc : List Transaction),
      (dbAcc.map Transaction.id).Nodup →
      (∀ t ∈ ts, t ∈ dbAcc) →
      ((ts.map Transaction.id).Nodup) →
      (∀ r ∈ dbAcc, ClassFix env r ∨ r ∈ ts) →
      ∀ r ∈ (ts.foldl (processStep env now) (s, dbAcc)).2, ClassFix env r := by
  intro ts
  induction ts with
  | nil =>
      intro s dbAcc _ _ _ hfix r hr
      rcases hfix r hr with h | h
      · exact h
      · exact absurd h (List.not_mem_nil r)
  | cons t rest ih =>
      intro s dbAcc hnd hsub htnd hfix r hr
      rw [List.foldl_cons] at hr
      simp only [List.map_cons] at htnd
      have htid_not : t.id ∉ rest.map Transaction.id := (List.nodup_cons.mp htnd).1
      have htailnd : (rest.map Transaction.id).Nodup := (List.nodup_cons.mp htnd).2
      by_cases hch : (check_transaction_status (env t.tx_hash)).1 = t.status
      · rw [processStep_unchanged env now s dbAcc t hch] at hr
        refine ih _ _ hnd (fun u hu => hsub u (List.mem_cons_of_mem _ hu)) htailnd
          ?_ r hr
        intro r2 hr2
        rcases hfix r2 hr2 with h | h
        · exact Or.inl h
        · rcases List.mem_cons.mp h with h | h
          · refine Or.inl ?_
            rw [h]
            exact fun _ => hch
          · exact Or.inr h
      · rw [processStep_changed env now s dbAcc t hch] at hr
        have hrowid :
            (applyUpdate now t (check_transaction_status (env t.tx_hash)).1
              (check_transaction_status (env t.tx_hash)).2).id = t.id :=
          applyUpdate_id now t _ _
        have hrowfix :
            ClassFix env (applyUpdate now t (check_transaction_status (env t.tx_hash)).1
              (check_transaction_status (env t.tx_hash)).2) := by
          intro _
          rw [applyUpdate_tx_hash, applyUpdate_status]
        have hmemt : t ∈ dbAcc := hsub t (List.mem_cons_self t rest)
        have hnd2 :
            ((saveRecord (applyUpdate now t (check_transaction_status (env t.tx_hash)).1
              (check_transaction_status (env t.tx_hash)).2) dbAcc).map Transaction.id).Nodup := by
          rw [saveRecord_map_id]
          exact hnd
        refine ih _ _ hnd2 ?_ htailnd ?_ r hr
        · intro u hu
          have humem : u ∈ dbAcc := hsub u (List.mem_cons_of_mem _ hu)
          have hune :
              u.id ≠ (applyUpdate now t (check_transaction_status (env t.tx_hash)).1
                (check_transaction_status (env t.tx_hash)).2).id := by
            rw [hrowid]
            intro he
            have hut : u = t := List.inj_on_of_nodup_map hnd humem hmemt he
            exact htid_not (hut ▸ List.mem_map_of_mem Transaction.id hu)
          exact mem_saveRecord_of_ne humem hune
        · intro r2 hr2
          rcases List.mem_map.mp hr2 with ⟨r3, hr3, heq⟩
          by_cases hid :
              r3.id = (applyUpdate now t (check_transaction_status (env t.tx_hash)).1
                (check_transaction_status (env t.tx_hash)).2).id
          · rw [if_pos hid] at heq
            refine Or.inl ?_
            rw [← heq]
            exact hrowfix
          · rw [if_neg hid] at heq
            rcases hfix r3 hr3 with h | h
            · refine Or.inl ?_
              rw [← heq]
              exact h
            · rcases List.mem_cons.mp h with h | h
              · refine absurd ?_ hid
                rw [h, hrowid]
              · refine Or.inr ?_
                rw [← heq]
                exact h


/-- When every batch record already matches its classification, the loop
neither updates a counter nor touches the store. -/
theorem fold_all_fixed (env : String → LookupResult) (now : Nat) :
    ∀ (ts : List Transaction) (s : JobSummary) (dbAcc : List Transaction),
      (∀ t ∈ ts, (check_transaction_status (env t.tx_hash)).1 = t.status) →
      (ts.foldl (processStep env now) (s, dbAcc)).1.updated = s.updated ∧
      (ts.foldl (processStep env now) (s, dbAcc)).2 = dbAcc := by
  intro ts
  induction ts with
  | nil =>
      intro s dbAcc _
      exact ⟨rfl, rfl⟩
  | cons t rest ih =>
      intro s dbAcc hts
      rw [List.foldl_cons,
        processStep_unchanged env now s dbAcc t (hts t (List.mem_cons_self t rest))]
      exact ih _ _ (fun u hu => hts u (List.mem_cons_of_mem _ hu))

/-- The job on an empty batch. -/
theorem update_eq_empty (pid : Option String) (env : String → LookupResult)
    (now : Nat) (db : List Transaction) (limit : Nat)
    (h : (selectTransactions db limit).isEmpty = true) :
    update_transaction_statuses pid env now db limit =
      ({ updated := 0, errors := 0, processed := 0 }, db) := by
  simp [update_transaction_statuses, h]

/-- The job on a non-empty batch with a missing credential. -/
theorem update_eq_nocred (pid : Option String) (env : String → LookupResult)
    (now : Nat) (db : List Transaction) (limit : Nat)
    (h1 : ¬ (selectTransactions db limit).isEmpty = true)
    (h2 : credentialMissing pid = true) :
    update_transaction_statuses pid env now db limit =
      ({ updated := 0, errors := 1, processed := 0 }, db) := by
  simp [update_transaction_statuses, h1, h2]

/-- The job on a non-empty batch with a credential: the loop runs. -/
theorem update_eq_fold (pid : Option String) (env : String → LookupResult)
    (now : Nat) (db : List Transaction) (limit : Nat)
    (h1 : ¬ (selectTransactions db limit).isEmpty = true)
    (h2 : ¬ credentialMissing pid = true) :
    update_transaction_statuses pid env now db limit =
      (selectTransactions db limit).foldl (processStep env now)
        ({ updated := 0, errors := 0, processed := 0 }, db) := by
  simp [update_transaction_statuses, h1, h2]

/-- C7 amended: the job is idempotent against an unchanged remote state
provided the whole pending-or-submitted backlog fits in the limit (and the
store's primary keys are distinct, as a relational store guarantees): the
second of two consecutive runs reports updated = 0 and leaves every record
unchanged.  Without the limit proviso the counterexample applies: the first
run can consume the limit on records the second run no longer selects. -/
theorem C7_second_run_no_writes_when_batch_fits :
    ∀ (pid : Option String) (env : String → LookupResult) (now1 now2 : Nat)
      (db : List Transaction) (limit : Nat),
      (db.map Transaction.id).Nodup →
      (db.filter pendingOrSubmitted).length ≤ limit →
      (update_transaction_statuses pid env now2
          (update_transaction_statuses pid env now1 db limit).2 limit).1.updated = 0 ∧
      (update_transaction_statuses pid env now2
          (update_transaction_statuses pid env now1 db limit).2 limit).2 =
        (update_transaction_statuses pid env now1 db limit).2 := by
  intro pid env now1 now2 db limit hnd hlen
  by_cases h1 : (selectTransactions db limit).isEmpty = true
  · rw [update_eq_empty pid env now1 db limit h1, update_eq_empty pid env now2 db limit h1]
    exact ⟨rfl, rfl⟩
  · by_cases h2 : credentialMissing pid = true
    · rw [update_eq_nocred pid env now1 db limit h1 h2,
        update_eq_nocred pid env now2 db limit h1 h2]
      exact ⟨rfl, rfl⟩
    · rw [update_eq_fold pid env now1 db limit h1 h2]
      have hfix1 :
          ∀ r ∈ ((selectTransactions db limit).foldl (processStep env now1)
              ({ updated := 0, errors := 0, processed := 0 }, db)).2,
            ClassFix env r := by
        refine fold_establishes_fix env now1 (selectTransactions db limit) _ db hnd
          (fun t ht => (mem_selectTransactions ht).1)
          (selectTransactions_id_nodup db limit hnd) ?_
        intro r hr
        by_cases hps : pendingOrSubmitted r = true
        · exact Or.inr (mem_select_of_pendingOrSubmitted hlen hr hps)
        · exact Or.inl (fun hx => absurd hx hps)
      by_cases h3 :
          (selectTransactions ((selectTransactions db limit).foldl (processStep env now1)
            ({ updated := 0, errors := 0, processed := 0 }, db)).2 limit).isEmpty = true
      · rw [update_eq_empty _ env now2 _ limit h3]
        exact ⟨rfl, rfl⟩
      · rw [update_eq_fold pid env now2 _ limit h3 h2]
        refine fold_all_fixed env now2 _ _ _ ?_
        intro t ht
        exact hfix1 t (mem_selectTransactions ht).1 (mem_selectTransactions ht).2

/-- C7 witness: with both submitted records inside a limit of 2, the first
run confirms both and the second run updates nothing and changes nothing. -/
theorem C7_second_run_no_writes_witness :
    (update_transaction_statuses (some "pid") confirmEnv 3
        (update_transaction_statuses (some "pid") confirmEnv 2 [earlyTx, lateTx] 2).2
        2).1.updated = 0 ∧
    (update_transaction_statuses (some "pid") confirmEnv 3
        (update_transaction_statuses (some "pid") confirmEnv 2 [earlyTx, lateTx] 2).2
        2).2 =
      (update_transaction_statuses (some "pid") confirmEnv 2 [earlyTx, lateTx] 2).2 :=
  C7_second_run_no_writes_when_batch_fits (some "pid") confirmEnv 2 3 [earlyTx, lateTx] 2
    (by decide) (by decide)

/-!
Resilience-pipeline helper lemmas for C2 and C4.
-/

/-- The retry loop passes a first-attempt success straight through. -/
theorem retryAttempts_first_ok {α : Type} (fuel : Nat) (d b : Int)
    (inner : SysState α → CallResult α × SysState α) (st st2 : SysState α) (v : α)
    (hfuel : 1 ≤ fuel) (h : inner st = (.ok v, st2)) :
    retryAttempts fuel d b inner st = (.ok v, st2) := by
  match fuel, hfuel with
  | 1, _ => simpa [retryAttempts] using h
  | n + 2, _ => simp [retryAttempts, h]

/-- A failed non-final attempt sleeps for the current delay, doubles it and
retries with one unit of fuel less. -/
theorem retryAttempts_err_step {α : Type} (n : Nat) (d b : Int)
    (inner : SysState α → CallResult α × SysState α) (st st2 : SysState α)
    (c : Nat) (m : String) (hinner : inner st = (.apiErr c m, st2)) :
    retryAttempts (n + 2) d b inner st =
      retryAttempts (n + 1) (d * b) b inner { st2 with time := st2.time + d } := by
  simp [retryAttempts, hinner]

/-- On the final allowed attempt the outcome propagates unchanged. -/
theorem retryAttempts_last {α : Type} (d b : Int)
    (inner : SysState α → CallResult α × SysState α) (st : SysState α) :
    retryAttempts 1 d b inner st = inner st := rfl

/-- When the breaker reports open it has not touched its store. -/
theorem is_open_true_snd {cb : CircuitBreaker} {now : Int} {store : CBStore}
    {service : String} (h : (cb.is_open now store service).1 = true) :
    (cb.is_open now store service).2 = store := by
  unfold CircuitBreaker.is_open at h ⊢
  cases hg : cacheGet now store (cb.cacheKeyFor service) with
  | none => simp [hg] at h
  | some fd =>
      simp only [hg] at h ⊢
      by_cases h5 : fd.1 ≥ cb.failure_threshold
      · by_cases hlt : now - fd.2 < cb.recovery_timeout
        · simp [h5, hlt]
        · simp [h5, hlt] at h
      · simp [h5] at h

/-- Without a live entry the breaker is closed and changes nothing. -/
theorem is_open_none {cb : CircuitBreaker} {now : Int} {store : CBStore}
    {service : String}
    (h : cacheGet now store (cb.cacheKeyFor service) = none) :
    cb.is_open now store service = (false, store) := by
  simp [CircuitBreaker.is_open, h]

/-- After record_success the service entry is gone at every time. -/
theorem cacheGet_record_success (cb : CircuitBreaker) (store : CBStore)
    (service : String) (t : Int) :
    cacheGet t (cb.record_success store service) (cb.cacheKeyFor service) = none := by
  unfold CircuitBreaker.record_success
  exact cacheGet_delete_self store (cb.cacheKeyFor service) t

/-- The circuit wrapper under an open breaker: ApiError 503, nothing else
happens — in particular the inner (cache and network) layer never runs. -/
theorem circuitCall_open {α : Type} (service : String)
    (inner : SysState α → CallResult α × SysState α) (st : SysState α)
    (h : (blockfrost_circuit_breaker.is_open st.time st.cb_store service).1 = true) :
    circuitCall service inner st =
      (.apiErr 503 "Circuit breaker is open - service temporarily unavailable", st) := by
  have h2 := is_open_true_snd h
  simp [circuitCall, h, h2]

/-- The cache wrapper on a hit: the cached value is returned and the state
(including the network-invocation counter) is untouched. -/
theorem cachedCall_hit {α : Type} (timeout : Int) (key : String)
    (net : Nat → CallResult α) (st : SysState α) (v : α)
    (h : cacheGet st.time st.bf_cache key = some v) :
    cachedCall timeout key net st = (.ok v, st) := by
  simp [cachedCall, h]

/-- The cache wrapper on a miss with a successful underlying call: one
network invocation, and the result is stored until time + timeout. -/
theorem cachedCall_miss_ok {α : Type} (timeout : Int) (key : String)
    (net : Nat → CallResult α) (st : SysState α) (v : α)
    (h1 : cacheGet st.time st.bf_cache key = none)
    (h2 : net st.net_calls = .ok v) :
    cachedCall timeout key net st =
      (.ok v,
       { st with
           bf_cache := cacheSet st.time st.bf_cache key v timeout,
           net_calls := st.net_calls + 1 }) := by
  simp [cachedCall, h1, h2]

/-- The circuit wrapper under a closed breaker with a successful inner
call: the result passes through and a success is recorded. -/
theorem circuitCall_closed_ok {α : Type} (service : String)
    (inner : SysState α → CallResult α × SysState α) (st st2 : SysState α) (v : α)
    (hclosed : (blockfrost_circuit_breaker.is_open st.time st.cb_store service).1 = false)
    (hinner : inner { st with cb_store :=
        (blockfrost_circuit_breaker.is_open st.time st.cb_store service).2 } = (.ok v, st2)) :
    circuitCall service inner st =
      (.ok v, { st2 with cb_store :=
        blockfrost_circuit_breaker.record_success st2.cb_store service }) := by
  simp [circuitCall, hclosed, hinner]

/-- safe_blockfrost_call with the breaker closed and the key cached: the
cached value is served on the first attempt with no network invocation; the
breaker, consulted before the cache, records a success. -/
theorem safe_call_hit_closed {α : Type} (timeout : Int) (args : List String)
    (net : Nat → CallResult α) (st : SysState α) (v : α)
    (hclosed : (blockfrost_circuit_breaker.is_open st.time st.cb_store "blockfrost").1 = false)
    (hhit : cacheGet st.time st.bf_cache
        (blockfrostCacheKey "blockfrost" "safe_blockfrost_call" args) = some v) :
    safe_blockfrost_call timeout args net st =
      (.ok v, { st with cb_store :=
          (blockfrost_circuit_breaker.record_success
            (blockfrost_circuit_breaker.is_open st.time st.cb_store "blockfrost").2
            "blockfrost") }) := by
  unfold safe_blockfrost_call retry_on_failure
  refine retryAttempts_first_ok (2 + 1) 500 2 _ st _ v (by omega) ?_
  exact circuitCall_closed_ok "blockfrost" _ st _ v hclosed
    (cachedCall_hit timeout _ net _ v hhit)

/-- safe_blockfrost_call with the breaker closed on a cache miss whose
underlying call succeeds: exactly one network invocation, the value stored
with the configured timeout, a success recorded. -/
theorem safe_call_miss_ok {α : Type} (timeout : Int) (args : List String)
    (net : Nat → CallResult α) (st : SysState α) (v : α)
    (hclosed : (blockfrost_circuit_breaker.is_open st.time st.cb_store "blockfrost").1 = false)
    (hmiss : cacheGet st.time st.bf_cache
        (blockfrostCacheKey "blockfrost" "safe_blockfrost_call" args) = none)
    (hnet : net st.net_calls = .ok v) :
    safe_blockfrost_call timeout args net st =
      (.ok v,
       { st with
           bf_cache := (cacheSet st.time st.bf_cache
             (blockfrostCacheKey "blockfrost" "safe_blockfrost_call" args) v timeout),
           cb_store := (blockfrost_circuit_breaker.record_success
             (blockfrost_circuit_breaker.is_open st.time st.cb_store "blockfrost").2
             "blockfrost"),
           net_calls := st.net_calls + 1 }) := by
  unfold safe_blockfrost_call retry_on_failure
  refine retryAttempts_first_ok (2 + 1) 500 2 _ st _ v (by omega) ?_
  exact circuitCall_closed_ok "blockfrost" _ st _ v hclosed
    (cachedCall_miss_ok timeout _ net _ v hmiss hnet)

/-- C2 amended: caching sits behind the circuit-breaker gate, not in front
of it.  With the breaker closed, a cache hit returns the cached value with
no underlying network invocation (though the breaker is still consulted and
records a success); a miss whose underlying call succeeds performs exactly
one invocation and stores the result until time + timeout; consequently a
second identical call within the timeout window is a hit, so the two calls
perform exactly one underlying invocation in total.  The original claim's
words — that a hit bypasses the circuit breaker — fail: see the
counterexample, where an open breaker masks a populated cache. -/
theorem C2_cache_behind_circuit_gate :
    ∀ {α : Type} (timeout : Int) (args : List String) (net : Nat → CallResult α)
      (st : SysState α) (v : α),
      (blockfrost_circuit_breaker.is_open st.time st.cb_store "blockfrost").1 = false →
      (cacheGet st.time st.bf_cache
          (blockfrostCacheKey "blockfrost" "safe_blockfrost_call" args) = some v →
        safe_blockfrost_call timeout args net st =
          (.ok v, { st with cb_store :=
              (blockfrost_circuit_breaker.record_success
                (blockfrost_circuit_breaker.is_open st.time st.cb_store "blockfrost").2
                "blockfrost") })) ∧
      (cacheGet st.time st.bf_cache
          (blockfrostCacheKey "blockfrost" "safe_blockfrost_call" args) = none →
        net st.net_calls = CallResult.ok v →
        safe_blockfrost_call timeout args net st =
          (.ok v,
           { st with
               bf_cache := (cacheSet st.time st.bf_cache
                 (blockfrostCacheKey "blockfrost" "safe_blockfrost_call" args) v timeout),
               cb_store := (blockfrost_circuit_breaker.record_success
                 (blockfrost_circuit_breaker.is_open st.time st.cb_store "blockfrost").2
                 "blockfrost"),
               net_calls := st.net_calls + 1 }) ∧
        (∀ d : Int, 0 ≤ d → d < timeout →
          (safe_blockfrost_call timeout args net
              { (safe_blockfrost_call timeout args net st).2 with
                  time := st.time + d }).1 = CallResult.ok v ∧
          (safe_blockfrost_call timeout args net
              { (safe_blockfrost_call timeout args net st).2 with
                  time := st.time + d }).2.net_calls = st.net_calls + 1)) := by
  intro α timeout args net st v hclosed
  refine ⟨fun hhit => safe_call_hit_closed timeout args net st v hclosed hhit,
    fun hmiss hnet => ⟨safe_call_miss_ok timeout args net st v hclosed hmiss hnet, ?_⟩⟩
  intro d hd0 hdt
  have hstate2 :
      ({ (safe_blockfrost_call timeout args net st).2 with
          time := st.time + d } : SysState α) =
        { st with
            time := st.time + d,
            bf_cache := (cacheSet st.time st.bf_cache
              (blockfrostCacheKey "blockfrost" "safe_blockfrost_call" args) v timeout),
            cb_store := (blockfrost_circuit_breaker.record_success
              (blockfrost_circuit_breaker.is_open st.time st.cb_store "blockfrost").2
              "blockfrost"),
            net_calls := st.net_calls + 1 } := by
    rw [safe_call_miss_ok timeout args net st v hclosed hmiss hnet]
  have hhit2 : cacheGet (st.time + d)
      (cacheSet st.time st.bf_cache
        (blockfrostCacheKey "blockfrost" "safe_blockfrost_call" args) v timeout)
      (blockfrostCacheKey "blockfrost" "safe_blockfrost_call" args) = some v := by
    rw [cacheGet_set_self]
    simp only [if_pos (by omega : st.time + d < st.time + timeout)]
  have hclosed2 : (blockfrost_circuit_breaker.is_open (st.time + d)
      (blockfrost_circuit_breaker.record_success
        (blockfrost_circuit_breaker.is_open st.time st.cb_store "blockfrost").2
        "blockfrost") "blockfrost").1 = false := by
    rw [is_open_none (cacheGet_record_success blockfrost_circuit_breaker _ "blockfrost" _)]
  rw [hstate2, safe_call_hit_closed timeout args net _ v hclosed2 hhit2]
  exact ⟨rfl, rfl⟩

/-- C2 witness: from an empty cache with a closed breaker, a first call
invokes the network once and a second call one second later is served from
the cache — one invocation in total. -/
theorem C2_cache_behind_circuit_gate_witness :
    (safe_blockfrost_call 300000 ["api.transaction", "h1"]
        (fun _ => CallResult.ok (7 : Nat))
        { (safe_blockfrost_call 300000 ["api.transaction", "h1"]
            (fun _ => CallResult.ok (7 : Nat)) ⟨0, [], [], 0⟩).2 with
            time := (0 : Int) + 1000 }).1 = CallResult.ok 7 ∧
    (safe_blockfrost_call 300000 ["api.transaction", "h1"]
        (fun _ => CallResult.ok (7 : Nat))
        { (safe_blockfrost_call 300000 ["api.transaction", "h1"]
            (fun _ => CallResult.ok (7 : Nat)) ⟨0, [], [], 0⟩).2 with
            time := (0 : Int) + 1000 }).2.net_calls = 0 + 1 :=
  ((C2_cache_behind_circuit_gate 300000 ["api.transaction", "h1"]
      (fun _ => CallResult.ok (7 : Nat)) ⟨0, [], [], 0⟩ 7 (by decide)).2
    (by decide) rfl).2 1000 (by decide) (by decide)

/-- C4 amended: an open circuit makes safe_blockfrost_call fail with
ApiError 503 without ever attempting the underlying network call, but not
immediately and not without consuming the retry budget: the 503 is itself
an ApiError, so the outer retry decorator catches it, sleeps 0.5 s then
1.0 s, and re-checks the gate, propagating the 503 only after the third
rejection, 1.5 s (1500 ms) after the first.  Neither cache nor breaker
state changes and the invocation counter stays put. -/
theorem C4_circuit_open_fails_after_retry_budget :
    ∀ {α : Type} (timeout : Int) (args : List String) (net : Nat → CallResult α)
      (st : SysState α),
      (blockfrost_circuit_breaker.is_open st.time st.cb_store "blockfrost").1 = true →
      (blockfrost_circuit_breaker.is_open (st.time + 500) st.cb_store "blockfrost").1 = true →
      (blockfrost_circuit_breaker.is_open (st.time + 1500) st.cb_store "blockfrost").1 = true →
      safe_blockfrost_call timeout args net st =
        (.apiErr 503 "Circuit breaker is open - service temporarily unavailable",
         { st with time := st.time + 1500 }) := by
  intro α timeout args net st h1 h2 h3
  unfold safe_blockfrost_call retry_on_failure
  have e1 := circuitCall_open "blockfrost"
    (cachedCall timeout (blockfrostCacheKey "blockfrost" "safe_blockfrost_call" args) net) st h1
  have e2 := circuitCall_open "blockfrost"
    (cachedCall timeout (blockfrostCacheKey "blockfrost" "safe_blockfrost_call" args) net)
    { st with time := st.time + 500 } h2
  have e3 := circuitCall_open "blockfrost"
    (cachedCall timeout (blockfrostCacheKey "blockfrost" "safe_blockfrost_call" args) net)
    { st with time := st.time + 1500 } h3
  rw [show (2 + 1 : Nat) = 1 + 2 from rfl,
    retryAttempts_err_step 1 500 2 _ st st 503 _ e1]
  rw [retryAttempts_err_step 0 (500 * 2) 2 _ _ _ 503 _ e2]
  rw [show (0 + 1 : Nat) = 1 from rfl, retryAttempts_last]
  convert e3 using 3
  simp
  omega

/-- C4 witness: the open-circuit theorem applied at the concrete open
store, where the breaker stays open through both retry sleeps. -/
theorem C4_circuit_open_fails_after_retry_budget_witness :
    safe_blockfrost_call 300000 ["api.transaction", "h1"]
        (fun _ => CallResult.ok (7 : Nat)) noCacheOpenState =
      (.apiErr 503 "Circuit breaker is open - service temporarily unavailable",
       { noCacheOpenState with time := noCacheOpenState.time + 1500 }) :=
  C4_circuit_open_fails_after_retry_budget 300000 ["api.transaction", "h1"]
    (fun _ => CallResult.ok (7 : Nat)) noCacheOpenState
    (by decide) (by decide) (by decide)

end BlockchainNotepad
